import Mathlib

/-
Verification of the sliding-sync protocol engine (`Sync3`).

This file gives a shallow embedding, in Lean 4, of the sync-v3 engine:
the op reconciler `processOps` (with its helpers `indexInRange` and the
INSERT shift loops) and one iteration of `syncLoop` (request building,
position-cursor handling, backoff accounting, abort handling).  The
JavaScript object `indexToRoomID` (a sparse map from integer index to
room id) is embedded as a `Finmap` from `ℤ` to `String`; JS `delete m[j]`
is `Finmap.erase`, `m[j] = v` for a defined `v` is `Finmap.insert`, and
`m[j] = u` for an undefined `u` is embedded as `Finmap.erase`, because a
key holding `undefined` is indistinguishable from an absent key by every
read the engine performs (`m[j]` lookups and truthiness tests).
JS truthiness of a string lookup is `truthy` below: an absent value and
the empty string are falsy, every other string is truthy.
-/

namespace Sync3

/-- Mirror of the `RoomResponse` interface.  The `required_state` and
`timeline` payloads are opaque to the engine (`any[]` in the source); they
are embedded as string lists, which the engine never inspects. -/
structure RoomResponse where
  room_id : String
  name : String
  required_state : List String
  timeline : List String
  notification_count : Int
  highlight_count : Int
deriving DecidableEq

/-- Mirror of the `Op` interface: a tag string plus optional fields, each
valid only for some tags.  `range` is a two-element JS array accessed only
as `range[0]`/`range[1]`, embedded as a pair. -/
structure Op where
  list : Int
  op : String
  range : Option (ℤ × ℤ)
  rooms : Option (List RoomResponse)
  index : Option ℤ
  room : Option RoomResponse
deriving DecidableEq

/-- The sparse `index -> room_id` JS object (`IndexToRoomId`). -/
abbrev IndexMap := Finmap (fun _ : ℤ => String)

/-- JS truthiness of `m[j]` where `m` maps to strings: `undefined` (absent
key) and the empty string are falsy, everything else truthy. -/
def truthy : Option String → Bool
  | none => false
  | some s => s != ""

/-- JS assignment `m[j] = v` where `v` itself is the result of a lookup and
may be `undefined`: an undefined right-hand side leaves the key without a
defined value, observationally an erase. -/
def assign (m : IndexMap) (j : ℤ) : Option String → IndexMap
  | some v => m.insert j v
  | none => m.erase j

/-- Mirror of `indexInRange(ranges, i)`: a fold over the ranges keeping a
flag, setting it whenever `r[0] <= i && i <= r[1]`. -/
def indexInRange (ranges : List (ℤ × ℤ)) (i : ℤ) : Bool :=
  ranges.foldl (fun isInRange r => if r.1 ≤ i ∧ i ≤ r.2 then true else isInRange) false

/-- The SYNC loop body: `for (j = startIndex; j <= range[1]; j++)` with
`r = op.rooms[j - startIndex]`, breaking at the first missing element,
otherwise `indexToRoomID[j] = r.room_id` and a push onto `roomUpdates`.
`n` is the number of iterations left (initially `range[1] + 1 - startIndex`,
clamped at zero) and `o` is the current offset `j - startIndex`. -/
def syncRun (lo : ℤ) (rooms : List RoomResponse) :
    ℕ → ℕ → IndexMap → List RoomResponse → IndexMap × List RoomResponse
  | 0, _, m, updates => (m, updates)
  | n + 1, o, m, updates =>
    match rooms[o]? with
    | none => (m, updates)
    | some r => syncRun lo rooms n (o + 1) (m.insert (lo + o) r.room_id) (updates ++ [r])

/-- The INVALIDATE loop body: `for (j = startIndex; j <= range[1]; j++)
delete indexToRoomID[j]`, with `n` the number of iterations left and `j`
the cursor. -/
def invalRun : ℕ → ℤ → IndexMap → IndexMap
  | 0, _, m => m
  | n + 1, j, m => invalRun n (j + 1) (m.erase j)

/-- The INSERT shift when the gap is further down the list
(`gapIndex > op.index`): `for (j = gapIndex; j > op.index; j--)`, copying
`indexToRoomID[j] = indexToRoomID[j-1]` only when `indexInRange(ranges, j)`.
`n` is the iteration count (`gapIndex - op.index`) and `j` the cursor. -/
def shiftTowardsGapAbove (ranges : List (ℤ × ℤ)) :
    ℕ → ℤ → IndexMap → IndexMap
  | 0, _, m => m
  | n + 1, j, m =>
    shiftTowardsGapAbove ranges n (j - 1)
      (if indexInRange ranges j then assign m j (m.lookup (j - 1)) else m)

/-- The INSERT shift when the gap is further up the list
(`gapIndex < op.index`): `for (j = gapIndex; j < op.index; j++)`, copying
`indexToRoomID[j] = indexToRoomID[j+1]` only when `indexInRange(ranges, j)`. -/
def shiftTowardsGapBelow (ranges : List (ℤ × ℤ)) :
    ℕ → ℤ → IndexMap → IndexMap
  | 0, _, m => m
  | n + 1, j, m =>
    shiftTowardsGapBelow ranges n (j + 1)
      (if indexInRange ranges j then assign m j (m.lookup (j + 1)) else m)

/-- The whole shift performed by an INSERT whose target is occupied and for
which a gap exists: the direction is chosen by comparing `gapIndex` with
`op.index`; equal indices shift nothing. -/
def insertShift (ranges : List (ℤ × ℤ)) (gapIndex idx : ℤ) (m : IndexMap) : IndexMap :=
  if gapIndex > idx then shiftTowardsGapAbove ranges (gapIndex - idx).toNat gapIndex m
  else if gapIndex < idx then shiftTowardsGapBelow ranges (idx - gapIndex).toNat gapIndex m
  else m

/-- The state threaded through the `for` loop of `processOps`.
`roomIndexToRoomId` is the engine's committed map (`this.roomIndexToRoomId`);
no statement of `processOps` ever writes it — it is threaded here so that
this frame property becomes a provable statement.  `indexToRoomID` is the
local copy `{ ...this.roomIndexToRoomId }` that the loop mutates, and
`gapIndex` starts at `-1`. -/
structure ProcState where
  roomIndexToRoomId : IndexMap
  indexToRoomID : IndexMap
  roomUpdates : List RoomResponse
  gapIndex : ℤ
deriving DecidableEq

/-- The state at loop entry: the local map is a copy of the committed map,
`roomUpdates` is empty, `gapIndex = -1`. -/
def initState (committed : IndexMap) : ProcState :=
  { roomIndexToRoomId := committed
    indexToRoomID := committed
    roomUpdates := []
    gapIndex := -1 }

/-- One iteration of the `switch (op.op)` in `processOps`.  Every `continue`
(missing required field, unknown tag, inconsistent INSERT) returns the state
unchanged. -/
def processOp (ranges : List (ℤ × ℤ)) (s : ProcState) (op : Op) : ProcState :=
  match op.op with
  | "SYNC" =>
    match op.range, op.rooms with
    | some range, some rooms =>
      let startIndex := range.1
      let run := syncRun startIndex rooms (range.2 + 1 - startIndex).toNat 0
        s.indexToRoomID s.roomUpdates
      { s with indexToRoomID := run.1, roomUpdates := run.2 }
    | _, _ => s
  | "INVALIDATE" =>
    match op.range with
    | some range =>
      { s with indexToRoomID := invalRun (range.2 + 1 - range.1).toNat range.1 s.indexToRoomID }
    | none => s
  | "INSERT" =>
    match op.index, op.room with
    | some idx, some room =>
      if truthy (s.indexToRoomID.lookup idx) then
        if s.gapIndex < 0 then s
        else
          { s with
            indexToRoomID :=
              (insertShift ranges s.gapIndex idx s.indexToRoomID).insert idx room.room_id
            roomUpdates := s.roomUpdates ++ [room] }
      else
        { s with
          indexToRoomID := s.indexToRoomID.insert idx room.room_id
          roomUpdates := s.roomUpdates ++ [room] }
    | _, _ => s
  | "DELETE" =>
    match op.index with
    | some idx => { s with indexToRoomID := s.indexToRoomID.erase idx, gapIndex := idx }
    | none => s
  | "UPDATE" =>
    match op.index, op.room with
    | some _, some room => { s with roomUpdates := s.roomUpdates ++ [room] }
    | _, _ => s
  | _ => s

/-- `processOps(ops)`: fold the ops in array order over the copied state and
return the new map together with the ordered room updates. -/
def processOps (committed : IndexMap) (ranges : List (ℤ × ℤ)) (ops : List Op) :
    IndexMap × List RoomResponse :=
  let final := ops.foldl (processOp ranges) (initState committed)
  (final.indexToRoomID, final.roomUpdates)

/-- A `RoomResponse` carrying only a room id, the other payload fields
blank; the reconciler reads nothing but `room_id`. -/
def mkRoom (id : String) : RoomResponse :=
  { room_id := id, name := "", required_state := [], timeline := []
    notification_count := 0, highlight_count := 0 }

/-- A well-formed SYNC op. -/
def syncOp (lo hi : ℤ) (rooms : List RoomResponse) : Op :=
  { list := 0, op := "SYNC", range := some (lo, hi), rooms := some rooms
    index := none, room := none }

/-- A well-formed INVALIDATE op. -/
def invalidateOp (lo hi : ℤ) : Op :=
  { list := 0, op := "INVALIDATE", range := some (lo, hi), rooms := none
    index := none, room := none }

/-- A well-formed INSERT op. -/
def insertOp (idx : ℤ) (room : RoomResponse) : Op :=
  { list := 0, op := "INSERT", range := none, rooms := none
    index := some idx, room := some room }

/-- A well-formed DELETE op. -/
def deleteOp (idx : ℤ) : Op :=
  { list := 0, op := "DELETE", range := none, rooms := none
    index := some idx, room := none }

/-- A well-formed UPDATE op. -/
def updateOp (idx : ℤ) (room : RoomResponse) : Op :=
  { list := 0, op := "UPDATE", range := none, rooms := none
    index := some idx, room := some room }

/-- An INSERT lands in the inconsistent case exactly when its target is
occupied (truthy) and `gapIndex < 0`; `none` for a missing index field. -/
def insertBlocked (s : ProcState) : Option ℤ → Bool
  | some idx => truthy (s.indexToRoomID.lookup idx) && decide (s.gapIndex < 0)
  | none => false

/-- An op that `processOps` skips with `continue` (or the default branch):
malformed for its tag (a required field missing), an unknown tag, or an
INSERT with an occupied target and no gap available. -/
def skippedOp (s : ProcState) (op : Op) : Prop :=
  (op.op = "SYNC" ∧ (op.range = none ∨ op.rooms = none)) ∨
  (op.op = "INVALIDATE" ∧ op.range = none) ∨
  (op.op = "INSERT" ∧ (op.index = none ∨ op.room = none)) ∨
  (op.op = "DELETE" ∧ op.index = none) ∨
  (op.op = "UPDATE" ∧ (op.index = none ∨ op.room = none)) ∨
  (op.op ≠ "SYNC" ∧ op.op ≠ "INVALIDATE" ∧ op.op ≠ "INSERT" ∧
    op.op ≠ "DELETE" ∧ op.op ≠ "UPDATE") ∨
  (op.op = "INSERT" ∧ op.room ≠ none ∧ insertBlocked s op.index = true)

instance instDecidableSkippedOp (s : ProcState) (op : Op) : Decidable (skippedOp s op) := by
  unfold skippedOp; infer_instance

/-- The reconciler state reached after `DELETE d; INSERT i₁ r₁` from a
committed map `m`: the setting of claim C10's second INSERT. -/
def twoOpState (m : IndexMap) (ranges : List (ℤ × ℤ)) (d i₁ : ℤ) (r₁ : RoomResponse) : ProcState :=
  processOp ranges (processOp ranges (initState m) (deleteOp d)) (insertOp i₁ r₁)

/-- The starting map `{0:a, 1:b, 2:c, 6:d, 7:e, 8:f}` of the worked example. -/
def c1map : IndexMap :=
  ((((((∅ : IndexMap).insert 0 "a").insert 1 "b").insert 2 "c").insert 6 "d").insert
    7 "e").insert 8 "f"

/-- The tracked ranges `[[0,5],[6,8]]` of the worked example. -/
def c1ranges : List (ℤ × ℤ) := [(0, 5), (6, 8)]

/-- The op batch `DELETE 7; INSERT 0 g` of the worked example. -/
def c1ops : List Op := [deleteOp 7, insertOp 0 (mkRoom "g")]

/-- The map `{0:g, 1:a, 2:b, 3:c, 6:d, 8:f}` that the claim says the worked
example produces. -/
def c1claimed : IndexMap :=
  ((((((∅ : IndexMap).insert 0 "g").insert 1 "a").insert 2 "b").insert 3 "c").insert
    6 "d").insert 8 "f"

/-- The map `{0:g, 1:a, 2:b, 3:c, 7:d, 8:f}` that the code actually
produces on the worked example: the shift loop runs `j = 7` down to `1`,
so `d` moves from 6 to 7, and indices 4, 5, 6 receive the (absent) values
of 3, 4, 5 and end up unset. -/
def c1actual : IndexMap :=
  ((((((∅ : IndexMap).insert 0 "g").insert 1 "a").insert 2 "b").insert 3 "c").insert
    7 "d").insert 8 "f"

/-- A two-entry map `{0:a, 1:b}` used to exercise the gap/shift path. -/
def m10 : IndexMap := ((∅ : IndexMap).insert 0 "a").insert 1 "b"

/-- Mirror of the `SyncStatus` enum. -/
inductive SyncStatus
  | InitialSync
  | Syncing
  | Stopped
deriving DecidableEq

/-- Mirror of the `Sync3List` request interface; the three optional fields
are the "sticky" parameters. -/
structure Sync3List where
  rooms : List (ℤ × ℤ)
  timeline_limit : Option ℤ := none
  required_state : Option (List (List String)) := none
  sort : Option (List String) := none
deriving DecidableEq

/-- Mirror of the `Sync3RequestBody` interface (`room_subscriptions` is
never set by `syncLoop` and is omitted). -/
structure Sync3RequestBody where
  session_id : String
  lists : List Sync3List
deriving DecidableEq

/-- Mirror of the `Sync3Response` interface. -/
structure Sync3Response where
  room_subscriptions : List (String × RoomResponse)
  ops : List Op
  counts : List ℤ
  pos : ℤ
deriving DecidableEq

/-- The loop-local state of one `syncLoop` invocation: the observable
`status`, the position cursor `pos` (`none` before the first response), the
`backoffCounter`, the engine's `ranges` and committed map, and the per-loop
`sessionId` (a timestamp string in the source). -/
structure LoopState where
  status : SyncStatus
  pos : Option ℤ
  backoffCounter : ℕ
  ranges : List (ℤ × ℤ)
  sessionId : String
  roomIndexToRoomId : IndexMap
deriving DecidableEq

/-- The outcome of one iteration's awaited steps: the response arrived and
`processResponse` returned (`success`), the response arrived but
`processResponse` threw — the `catch` then runs after `backoffCounter = 0`
already executed (`processThrow`), the request was aborted and
`this.status` reads `statusNow` inside the `catch` (`abortError`), or the
request itself failed (`otherError`). -/
inductive IterOutcome where
  | success (resp : Sync3Response)
  | processThrow (resp : Sync3Response)
  | abortError (statusNow : SyncStatus)
  | otherError
deriving DecidableEq

/-- What one loop iteration did: the next loop state, whether the `return`
inside the `catch` terminated the loop, the backoff sleep performed (in
milliseconds; the fixed 100 ms pre-request delay is not a backoff sleep),
and the request body sent. -/
structure IterResult where
  next : LoopState
  terminated : Bool
  backoffSleepMs : Option ℕ
  requestBody : Sync3RequestBody
deriving DecidableEq

/-- The request body built at the top of each iteration: the ranges always;
the sticky parameters exactly when `isFirstSync`, i.e. when the status read
at the top of the iteration is `InitialSync`. -/
def buildRequestBody (s : LoopState) : Sync3RequestBody :=
  let list : Sync3List :=
    if s.status = SyncStatus.InitialSync then
      { rooms := s.ranges
        sort := some ["by_highlight_count", "by_notification_count", "by_recency"]
        timeline_limit := some 20
        required_state := some [["m.room.avatar", ""]] }
    else
      { rooms := s.ranges }
  { session_id := s.sessionId, lists := [list] }

/-- Mirror of `backoffCounter += 1; if (backoffCounter > 5) backoffCounter = 5`
applied to the incremented counter. -/
def capBackoff (c : ℕ) : ℕ := if c > 5 then 5 else c

/-- One iteration of the `while` loop in `syncLoop`, as a function of the
outcome of its awaited steps.  On `success`: reset the counter, advance
`pos := resp.pos`, and move `InitialSync` to `Syncing`.  On `processThrow`:
the counter was already reset to `0` before the throw, so the `catch`
increments it to `1` and sleeps `2^1` seconds; `pos` is not advanced.  On
`abortError`: return when the status is now `Stopped`, otherwise `continue`
with nothing changed.  On any other error: increment the capped counter and
sleep `2^counter` seconds. -/
def syncIter (s : LoopState) (outcome : IterOutcome) : IterResult :=
  let body := buildRequestBody s
  match outcome with
  | IterOutcome.success resp =>
    { next := { s with
        backoffCounter := 0
        pos := some resp.pos
        status := if s.status = SyncStatus.InitialSync then SyncStatus.Syncing else s.status }
      terminated := false
      backoffSleepMs := none
      requestBody := body }
  | IterOutcome.processThrow _ =>
    { next := { s with backoffCounter := capBackoff (0 + 1) }
      terminated := false
      backoffSleepMs := some (2 ^ capBackoff (0 + 1) * 1000)
      requestBody := body }
  | IterOutcome.abortError statusNow =>
    if statusNow = SyncStatus.Stopped then
      { next := { s with status := statusNow }
        terminated := true
        backoffSleepMs := none
        requestBody := body }
    else
      { next := { s with status := statusNow }
        terminated := false
        backoffSleepMs := none
        requestBody := body }
  | IterOutcome.otherError =>
    { next := { s with backoffCounter := capBackoff (s.backoffCounter + 1) }
      terminated := false
      backoffSleepMs := some (2 ^ capBackoff (s.backoffCounter + 1) * 1000)
      requestBody := body }

/-- The loop state after `n` consecutive request failures (`otherError`). -/
def runOtherErrors (s : LoopState) : ℕ → LoopState
  | 0 => s
  | n + 1 => (syncIter (runOtherErrors s n) IterOutcome.otherError).next

/-- A loop state mid-sync with a fresh backoff counter. -/
def s0 : LoopState :=
  { status := SyncStatus.Syncing, pos := some 0, backoffCounter := 0
    ranges := [(0, 99)], sessionId := "1", roomIndexToRoomId := ∅ }

/-- An empty but well-formed response. -/
def resp0 : Sync3Response :=
  { room_subscriptions := [], ops := [], counts := [], pos := 1 }

/-- The loop state right after `start()`: status `InitialSync`, no `pos`. -/
def s0C9 : LoopState :=
  { status := SyncStatus.InitialSync, pos := none, backoffCounter := 0
    ranges := [(0, 99)], sessionId := "1", roomIndexToRoomId := ∅ }

/-- Inserting at a key just erased gives the same map as inserting over the
original: the JS sequence `delete m[i]; m[i] = v` agrees with `m[i] = v`. -/
theorem insert_erase_self (m : IndexMap) (i : ℤ) (v : String) :
    (m.erase i).insert i v = m.insert i v := by
  apply Finmap.ext_lookup
  intro j
  by_cases h : j = i
  · subst h; simp
  · rw [Finmap.lookup_insert_of_ne _ h, Finmap.lookup_insert_of_ne _ h,
      Finmap.lookup_erase_ne h]

/-- The update list produced by a SYNC loop run: the rooms it walked over,
in order, appended to the accumulator. -/
theorem syncRun_updates (lo : ℤ) (rooms : List RoomResponse) (n : ℕ) :
    ∀ (o : ℕ) (m : IndexMap) (u : List RoomResponse),
      (syncRun lo rooms n o m u).2 = u ++ (rooms.drop o).take n := by
  induction n with
  | zero => intro o m u; simp [syncRun]
  | succ n ih =>
    intro o m u
    cases h : rooms[o]? with
    | none =>
      have hle : rooms.length ≤ o := List.getElem?_eq_none_iff.mp h
      simp [syncRun, h, List.drop_eq_nil_of_le hle]
    | some r =>
      have hd : rooms.drop o = r :: rooms.drop (o + 1) := by
        rw [List.getElem?_eq_some] at h
        obtain ⟨hlt, hr⟩ := h
        rw [List.drop_eq_getElem_cons hlt, hr]
      simp [syncRun, h, ih, hd]

/-- A SYNC loop run leaves every key it does not write unchanged: the
written keys are `lo + k` for offsets `k` in `[o, o + n)` below the rooms
array length. -/
theorem syncRun_lookup_frame (lo : ℤ) (rooms : List RoomResponse) (n : ℕ) :
    ∀ (o : ℕ) (m : IndexMap) (u : List RoomResponse) (j : ℤ),
      (∀ k : ℕ, o ≤ k → k < o + n → k < rooms.length → j ≠ lo + k) →
      ((syncRun lo rooms n o m u).1).lookup j = m.lookup j := by
  induction n with
  | zero => intro o m u j _; simp [syncRun]
  | succ n ih =>
    intro o m u j hj
    cases h : rooms[o]? with
    | none => simp [syncRun, h]
    | some r =>
      have hlt : o < rooms.length := (List.getElem?_eq_some.mp h).1
      simp only [syncRun, h]
      rw [ih (o + 1) _ _ j ?_]
      · exact Finmap.lookup_insert_of_ne _ (hj o le_rfl (by omega) hlt)
      · intro k hk1 hk2 hk3
        exact hj k (by omega) (by omega) hk3

/-- A SYNC loop run writes `rooms[k].room_id` at key `lo + k` for every
offset `k` it reaches before the rooms array ends. -/
theorem syncRun_lookup_written (lo : ℤ) (rooms : List RoomResponse) (n : ℕ) :
    ∀ (o : ℕ) (m : IndexMap) (u : List RoomResponse) (k : ℕ),
      o ≤ k → k < o + n → k < rooms.length →
      ((syncRun lo rooms n o m u).1).lookup (lo + k) =
        rooms[k]?.map (fun r => r.room_id) := by
  induction n with
  | zero => intro o m u k h1 h2 h3; omega
  | succ n ih =>
    intro o m u k h1 h2 h3
    cases h : rooms[o]? with
    | none =>
      rw [List.getElem?_eq_none_iff] at h
      omega
    | some r =>
      rcases eq_or_lt_of_le h1 with heq | hlt2
      · subst heq
        simp only [syncRun, h]
        rw [syncRun_lookup_frame lo rooms n (o + 1) _ _ _ ?_]
        · rw [Finmap.lookup_insert]
          rfl
        · intro k' hk1 hk2 hk3 hcontra
          omega
      · simp only [syncRun, h]
        exact ih (o + 1) _ _ k (by omega) (by omega) h3

/-- No branch of the `switch` writes the committed map. -/
theorem processOp_committed (ranges : List (ℤ × ℤ)) (s : ProcState) (op : Op) :
    (processOp ranges s op).roomIndexToRoomId = s.roomIndexToRoomId := by
  unfold processOp
  repeat' split <;> try rfl

/-- Every skipped op (malformed, unknown tag, or inconsistent INSERT)
leaves the whole reconciler state unchanged. -/
theorem processOp_skipped (ranges : List (ℤ × ℤ)) (s : ProcState) (op : Op)
    (h : skippedOp s op) : processOp ranges s op = s := by
  obtain ⟨l, t, rg, rms, ix, rm⟩ := op
  simp only [skippedOp] at h
  rcases h with ⟨ht, hf | hf⟩ | ⟨ht, hf⟩ | ⟨ht, hf | hf⟩ | ⟨ht, hf⟩ | ⟨ht, hf | hf⟩ |
    ⟨h1, h2, h3, h4, h5⟩ | ⟨ht, hrm, hbl⟩
  · subst ht; subst hf; rfl
  · subst ht; subst hf; cases rg <;> rfl
  · subst ht; subst hf; rfl
  · subst ht; subst hf; rfl
  · subst ht; subst hf; cases ix <;> rfl
  · subst ht; subst hf; rfl
  · subst ht; subst hf; rfl
  · subst ht; subst hf; cases ix <;> rfl
  · unfold processOp
    split <;> simp_all
  · subst ht
    cases ix with
    | none => simp [insertBlocked] at hbl
    | some idx =>
      cases rm with
      | none => exact absurd rfl hrm
      | some room =>
        simp only [insertBlocked, Bool.and_eq_true, decide_eq_true_eq] at hbl
        simp [processOp, hbl.1, hbl.2]

/-- A request failure leaves the next counter at the capped increment. -/
theorem syncIter_otherError_counter (s : LoopState) :
    (syncIter s IterOutcome.otherError).next.backoffCounter = capBackoff (s.backoffCounter + 1) :=
  rfl

/-- A request failure sleeps `2^counter` seconds with the capped
incremented counter. -/
theorem syncIter_otherError_sleep (s : LoopState) :
    (syncIter s IterOutcome.otherError).backoffSleepMs =
      some (2 ^ capBackoff (s.backoffCounter + 1) * 1000) :=
  rfl

/-- Starting from a fresh counter, `n` consecutive request failures leave
the counter at `min n 5`. -/
theorem runOtherErrors_counter (s : LoopState) (h : s.backoffCounter = 0) (n : ℕ) :
    (runOtherErrors s n).backoffCounter = min n 5 := by
  induction n with
  | zero => simpa [runOtherErrors]
  | succ n ih =>
    simp only [runOtherErrors, syncIter_otherError_counter, ih]
    unfold capBackoff
    split <;> omega

/-- C1 (counterexample to the claim): on the worked example — map
`{0:a,1:b,2:c,6:d,7:e,8:f}`, ranges `[[0,5],[6,8]]`, ops
`DELETE 7; INSERT 0 g` — the reconciler does not produce the claimed map
`{0:g,1:a,2:b,3:c,6:d,8:f}`. -/
theorem c1_counterexample : (processOps c1map c1ranges c1ops).1 ≠ c1claimed := by
  decide

/-- C1 (corrected): the worked example produces the map
`{0:g,1:a,2:b,3:c,7:d,8:f}` and the single update `g`.  Indices 0..2 shift
up by one and the new room lands at 0, as claimed; but because the shift
loop runs from the gap at 7 down to 1 and every index 1..8 of this example
lies inside a tracked range, `d` also shifts from 6 to 7, and indices 4, 5
and 6 receive the absent values of 3, 4 and 5 and end up unset — index 6 is
not preserved as `d`, contrary to the claim. -/
theorem c1_delete_insert_example :
    processOps c1map c1ranges c1ops = (c1actual, [mkRoom "g"]) := by
  decide

/-- C2 (confirmed): a SYNC op over `[lo, hi]` writes
`map[lo+k] = rooms[k].room_id` for every `k` below both the rooms count and
the range width, stopping at the first missing element; every index of the
range beyond the provided rooms keeps its prior mapping; the rooms walked
over are appended to the update list in order. -/
theorem c2_sync_semantics (m : IndexMap) (ranges : List (ℤ × ℤ)) (lo hi : ℤ)
    (rooms : List RoomResponse) :
    (∀ k : ℕ, k < min rooms.length (hi + 1 - lo).toNat →
      ((processOps m ranges [syncOp lo hi rooms]).1).lookup (lo + k) =
        rooms[k]?.map (fun r => r.room_id)) ∧
    (∀ j : ℤ, lo ≤ j → j ≤ hi → (rooms.length : ℤ) ≤ j - lo →
      ((processOps m ranges [syncOp lo hi rooms]).1).lookup j = m.lookup j) ∧
    (processOps m ranges [syncOp lo hi rooms]).2 = rooms.take (hi + 1 - lo).toNat := by
  have hproc : processOps m ranges [syncOp lo hi rooms] =
      ((syncRun lo rooms (hi + 1 - lo).toNat 0 m []).1,
       (syncRun lo rooms (hi + 1 - lo).toNat 0 m []).2) := by
    simp [processOps, processOp, syncOp, initState]
  refine ⟨?_, ?_, ?_⟩
  · intro k hk
    rw [hproc]
    exact syncRun_lookup_written lo rooms _ 0 m [] k (Nat.zero_le k) (by omega) (by omega)
  · intro j h1 h2 h3
    rw [hproc]
    apply syncRun_lookup_frame
    intro k hk1 hk2 hk3 hcontra
    omega
  · rw [hproc]
    rw [syncRun_updates]
    simp

/-- C2 witness: `SYNC [10,12]` with two rooms writes `a` at 10, leaves 12
untouched, and reports both rooms as updates. -/
theorem c2_witness :
    ((0 : ℕ) < min ([mkRoom "a", mkRoom "b"].length) ((12 + 1 - 10 : ℤ)).toNat) ∧
    ((processOps ∅ [] [syncOp 10 12 [mkRoom "a", mkRoom "b"]]).1).lookup (10 + ((0 : ℕ) : ℤ)) =
      ([mkRoom "a", mkRoom "b"][(0 : ℕ)]?).map (fun r => r.room_id) ∧
    ((processOps ∅ [] [syncOp 10 12 [mkRoom "a", mkRoom "b"]]).1).lookup 12 =
      (∅ : IndexMap).lookup 12 ∧
    (processOps ∅ [] [syncOp 10 12 [mkRoom "a", mkRoom "b"]]).2 =
      [mkRoom "a", mkRoom "b"].take ((12 + 1 - 10 : ℤ)).toNat := by
  have h := c2_sync_semantics ∅ [] 10 12 [mkRoom "a", mkRoom "b"]
  exact ⟨by decide, h.1 0 (by decide), h.2.1 12 (by decide) (by decide) (by decide), h.2.2⟩

/-- C3 (counterexample to the claim): from the empty map,
`DELETE 0; INSERT 0 a` yields the map `{0:a}` while `UPDATE 0 a` leaves the
map empty — the two batches do not yield the same index map. -/
theorem c3_counterexample :
    (processOps ∅ [] [deleteOp 0, insertOp 0 (mkRoom "a")]).1 ≠
      (processOps ∅ [] [updateOp 0 (mkRoom "a")]).1 := by
  decide

/-- C3 (corrected): for every map, ranges, index and room, the batches
`DELETE i; INSERT i r` and `UPDATE i r` produce the same ordered update
list (just `r`), and neither shifts; but they agree on the map only when it
already held `r.room_id` at `i`: the DELETE-INSERT pair sets
`map[i] = r.room_id`, while UPDATE does not touch the map at all. -/
theorem c3_delete_insert_vs_update (m : IndexMap) (ranges : List (ℤ × ℤ)) (i : ℤ)
    (r : RoomResponse) :
    (processOps m ranges [deleteOp i, insertOp i r]).2 =
      (processOps m ranges [updateOp i r]).2 ∧
    (processOps m ranges [deleteOp i, insertOp i r]).1 = m.insert i r.room_id ∧
    (processOps m ranges [updateOp i r]).1 = m := by
  refine ⟨?_, ?_, ?_⟩ <;>
    simp [processOps, processOp, initState, deleteOp, insertOp, updateOp, truthy,
      Finmap.lookup_erase, insert_erase_self]

/-- C4 (confirmed): an op that is malformed for its tag, carries an unknown
tag, or is an INSERT into an occupied slot with no gap available, is
skipped: it leaves the reconciler state where it stood, and the batch
containing it reconciles exactly as the batch without it — `processOps`
always returns (it is a total function) and keeps going. -/
theorem c4_skip_and_continue (committed : IndexMap) (ranges : List (ℤ × ℤ))
    (pre post : List Op) (op : Op)
    (h : skippedOp (pre.foldl (processOp ranges) (initState committed)) op) :
    processOp ranges (pre.foldl (processOp ranges) (initState committed)) op =
      pre.foldl (processOp ranges) (initState committed) ∧
    processOps committed ranges (pre ++ op :: post) =
      processOps committed ranges (pre ++ post) := by
  have hskip := processOp_skipped ranges _ op h
  refine ⟨hskip, ?_⟩
  unfold processOps
  rw [List.foldl_append, List.foldl_append, List.foldl_cons, hskip]

/-- C4 witness: a DELETE with no index field is skipped and the batch
behaves as if it were absent. -/
theorem c4_witness :
    skippedOp (List.foldl (processOp []) (initState ∅) [])
      { list := 0, op := "DELETE", range := none, rooms := none, index := none, room := none } ∧
    (processOp [] (List.foldl (processOp []) (initState ∅) [])
        { list := 0, op := "DELETE", range := none, rooms := none, index := none, room := none } =
      List.foldl (processOp []) (initState ∅) [] ∧
    processOps ∅ []
        ([] ++ { list := 0, op := "DELETE", range := none, rooms := none
                 index := none, room := none } :: [updateOp 0 (mkRoom "a")]) =
      processOps ∅ [] ([] ++ [updateOp 0 (mkRoom "a")])) :=
  ⟨by decide, c4_skip_and_continue ∅ [] [] [updateOp 0 (mkRoom "a")] _ (by decide)⟩

/-- C5 (confirmed): `processOps` is non-destructive with respect to the
committed map: across every op batch the threaded `roomIndexToRoomId` is
key-for-key the map it started as, and the returned pair is built from the
local copy only.  (Freshness of the returned snapshot is exactly the copy
`{ ...this.roomIndexToRoomId }` embedded in `initState`; aliasing itself
has no observable meaning in a pure embedding.) -/
theorem c5_non_destructive (committed : IndexMap) (ranges : List (ℤ × ℤ)) (ops : List Op) :
    (ops.foldl (processOp ranges) (initState committed)).roomIndexToRoomId = committed ∧
    processOps committed ranges ops =
      ((ops.foldl (processOp ranges) (initState committed)).indexToRoomID,
       (ops.foldl (processOp ranges) (initState committed)).roomUpdates) := by
  constructor
  · have hfold : ∀ (l : List Op) (s : ProcState),
        (l.foldl (processOp ranges) s).roomIndexToRoomId = s.roomIndexToRoomId := by
      intro l
      induction l with
      | nil => intro s; rfl
      | cons a l ih => intro s; rw [List.foldl_cons, ih, processOp_committed]
    rw [hfold]; rfl
  · rfl

/-- C6 (confirmed): the position cursor advances only on confirmed success:
a successful iteration sets `pos` to the response's `pos`; an iteration
failing anywhere (request failure, abort, or a throw while processing the
response) leaves `pos` exactly as it was, so the next request carries the
same position. -/
theorem c6_pos_advances_only_on_success (s : LoopState) (o : IterOutcome) :
    (syncIter s o).next.pos =
      match o with
      | IterOutcome.success resp => some resp.pos
      | _ => s.pos := by
  cases o
  case success => rfl
  case processThrow => rfl
  case abortError st => simp only [syncIter]; split <;> rfl
  case otherError => rfl

/-- C7 (counterexample to the claim): two consecutive non-cancellation
failures do not always sleep `2, 4` seconds: after one request failure
(sleep 2 s), an iteration whose response arrives but whose processing
throws has its counter reset to zero before the throw, so the second
consecutive failure sleeps 2 s again, not `2^2 = 4` s. -/
theorem c7_counterexample :
    (syncIter (syncIter s0 IterOutcome.otherError).next
      (IterOutcome.processThrow resp0)).backoffSleepMs = some 2000 ∧
    (2000 : ℕ) ≠ 2 ^ min 2 5 * 1000 := by
  exact ⟨rfl, by norm_num⟩

/-- C7 (corrected): for runs of consecutive failures in which no response
is received (request failures), the delays are `2, 4, 8, 16, 32, 32, ...`
seconds: starting from a zero counter, the `(k+1)`-th such failure sleeps
`2^min(k+1,5)` seconds; and any successful response resets the counter to
zero, so the next failure sleeps 2 seconds again.  (A failure whose
response was received but whose processing threw also restarts the
doubling at 2 seconds, because the reset precedes the processing.) -/
theorem c7_backoff (s : LoopState) (h : s.backoffCounter = 0) :
    (∀ k : ℕ, (syncIter (runOtherErrors s k) IterOutcome.otherError).backoffSleepMs =
      some (2 ^ min (k + 1) 5 * 1000)) ∧
    (∀ (s' : LoopState) (resp : Sync3Response),
      (syncIter s' (IterOutcome.success resp)).next.backoffCounter = 0) := by
  constructor
  · intro k
    rw [syncIter_otherError_sleep, runOtherErrors_counter s h k]
    have hcap : capBackoff (min k 5 + 1) = min (k + 1) 5 := by
      unfold capBackoff; split <;> omega
    rw [hcap]
  · intro s' resp; rfl

/-- C7 witness: from a zero counter the sixth consecutive request failure
sleeps the capped `2^5` seconds, and a success resets the counter. -/
theorem c7_witness :
    s0.backoffCounter = 0 ∧
    (syncIter (runOtherErrors s0 5) IterOutcome.otherError).backoffSleepMs =
      some (2 ^ min (5 + 1) 5 * 1000) ∧
    (syncIter s0 (IterOutcome.success resp0)).next.backoffCounter = 0 :=
  ⟨rfl, (c7_backoff s0 rfl).1 5, (c7_backoff s0 rfl).2 s0 resp0⟩

/-- C8 (confirmed): an aborted request terminates the loop exactly when the
status now reads `Stopped`; otherwise the loop continues immediately with
the same `pos`, no backoff sleep and no failure-counter change. -/
theorem c8_abort (s : LoopState) (st : SyncStatus) :
    (syncIter s (IterOutcome.abortError st)).terminated = decide (st = SyncStatus.Stopped) ∧
    (syncIter s (IterOutcome.abortError st)).next.pos = s.pos ∧
    (syncIter s (IterOutcome.abortError st)).next.backoffCounter = s.backoffCounter ∧
    (syncIter s (IterOutcome.abortError st)).backoffSleepMs = none := by
  by_cases h : st = SyncStatus.Stopped <;> simp [syncIter, h]

/-- C9 (counterexample to the claim): when the first request of a loop
invocation fails, the second request still carries the sticky parameters
(sort, timeline limit, required state), not only the ranges and session id
— contradicting "on the very first iteration only". -/
theorem c9_counterexample :
    (syncIter (syncIter s0C9 IterOutcome.otherError).next IterOutcome.otherError).requestBody.lists =
      [{ rooms := [(0, 99)]
         sort := some ["by_highlight_count", "by_notification_count", "by_recency"]
         timeline_limit := some 20
         required_state := some [["m.room.avatar", ""]] }] ∧
    (syncIter (syncIter s0C9 IterOutcome.otherError).next IterOutcome.otherError).requestBody.lists ≠
      [{ rooms := [(0, 99)] }] := by
  exact ⟨rfl, by decide⟩

/-- C9 (corrected): the sticky parameters are attached exactly while the
status is `InitialSync`, i.e. on every request up to and including the
first successful one of the loop invocation (the status moves to `Syncing`
only on success); afterwards the body carries only the ranges and the
session id. -/
theorem c9_sticky (s : LoopState) (o : IterOutcome) :
    (syncIter s o).requestBody =
      { session_id := s.sessionId
        lists := [if s.status = SyncStatus.InitialSync then
            { rooms := s.ranges
              sort := some ["by_highlight_count", "by_notification_count", "by_recency"]
              timeline_limit := some 20
              required_state := some [["m.room.avatar", ""]] }
          else { rooms := s.ranges }] } ∧
    (∀ resp : Sync3Response, (syncIter s (IterOutcome.success resp)).next.status =
      if s.status = SyncStatus.InitialSync then SyncStatus.Syncing else s.status) := by
  constructor
  · cases o
    case success => rfl
    case processThrow => rfl
    case abortError st => simp only [syncIter]; split <;> rfl
    case otherError => rfl
  · intro resp; rfl

/-- C10 (confirmed): within a batch the gap index is set only by DELETE and
never cleared by an INSERT that consumes it: after `DELETE d; INSERT i₁ r₁`
(first target occupied), the gap index still reads `d`, so a second INSERT
whose target is occupied again performs the shift with pivot `d` instead of
being skipped as inconsistent. -/
theorem c10_gap_persists (m : IndexMap) (ranges : List (ℤ × ℤ)) (d i₁ i₂ : ℤ)
    (r₁ r₂ : RoomResponse)
    (hd : 0 ≤ d)
    (h₁ : truthy ((m.erase d).lookup i₁) = true)
    (h₂ : truthy ((twoOpState m ranges d i₁ r₁).indexToRoomID.lookup i₂) = true) :
    (twoOpState m ranges d i₁ r₁).gapIndex = d ∧
    processOp ranges (twoOpState m ranges d i₁ r₁) (insertOp i₂ r₂) =
      { twoOpState m ranges d i₁ r₁ with
        indexToRoomID :=
          (insertShift ranges d i₂ ((twoOpState m ranges d i₁ r₁).indexToRoomID)).insert
            i₂ r₂.room_id
        roomUpdates := (twoOpState m ranges d i₁ r₁).roomUpdates ++ [r₂] } := by
  have hstate : twoOpState m ranges d i₁ r₁ =
      { roomIndexToRoomId := m
        indexToRoomID := (insertShift ranges d i₁ (m.erase d)).insert i₁ r₁.room_id
        roomUpdates := [r₁]
        gapIndex := d } := by
    unfold twoOpState
    have step1 : processOp ranges (initState m) (deleteOp d) =
        { roomIndexToRoomId := m, indexToRoomID := m.erase d
          roomUpdates := [], gapIndex := d } := rfl
    rw [step1]
    simp [processOp, insertOp, h₁, show ¬ d < 0 by omega]
  have hgap : (twoOpState m ranges d i₁ r₁).gapIndex = d := by rw [hstate]
  refine ⟨hgap, ?_⟩
  simp [processOp, insertOp, h₂, hgap, show ¬ d < 0 by omega]

/-- C10 witness: on `{0:a, 1:b}` with ranges `[[0,5]]`, `DELETE 1` then two
INSERTs at the occupied index 0 both go through the shift with pivot 1. -/
theorem c10_witness :
    ((0 : ℤ) ≤ 1) ∧
    truthy ((m10.erase 1).lookup 0) = true ∧
    truthy ((twoOpState m10 [(0, 5)] 1 0 (mkRoom "x")).indexToRoomID.lookup 0) = true ∧
    ((twoOpState m10 [(0, 5)] 1 0 (mkRoom "x")).gapIndex = 1 ∧
     processOp [(0, 5)] (twoOpState m10 [(0, 5)] 1 0 (mkRoom "x")) (insertOp 0 (mkRoom "y")) =
       { twoOpState m10 [(0, 5)] 1 0 (mkRoom "x") with
         indexToRoomID :=
           (insertShift [(0, 5)] 1 0
             ((twoOpState m10 [(0, 5)] 1 0 (mkRoom "x")).indexToRoomID)).insert 0
             (mkRoom "y").room_id
         roomUpdates := (twoOpState m10 [(0, 5)] 1 0 (mkRoom "x")).roomUpdates ++ [mkRoom "y"] }) :=
  ⟨by decide, by decide, by decide,
   c10_gap_persists m10 [(0, 5)] 1 0 0 (mkRoom "x") (mkRoom "y") (by decide) (by decide)
     (by decide)⟩

end Sync3
